import Mathlib

/-!
Verification of the provider-pocket-id reconciliation engine.

This file shallowly embeds the Go source of the Crossplane provider for
Pocket ID: the `pocketid` HTTP client layer (`internal/clients/pocketid`),
the per-kind API parameter/observation types (`apis/v1alpha1`), and the
five managed-resource controllers (adminuser, group, oidcclient,
clientgroupbinding, usergroupbinding).  Remote calls are modelled by
oracle structures (`Api`, `Kube`) supplying the response of each call,
and every controller method returns, besides its result and the updated
custom resource, the trace of remote calls it issued, in order.
Go `map[string]string` values are modelled as association lists
(`StrMap`); any map built by Go has pairwise distinct keys.
Go `error` values are modelled by `Err`: `Err.msg` is `errors.New` /
`fmt.Errorf` without a wrapped cause, and `Err.wrap` is
`errors.Wrap(err, context)` / `fmt.Errorf("context: %w", err)`.
-/

/-- Go error values: a bare message or a wrapped cause with context. -/
inductive Err where
  | msg (s : String)
  | wrap (context : String) (cause : Err)
deriving DecidableEq, Repr

/-- Propositional equality on `Except` results is decidable, so concrete
controller outcomes can be checked by evaluation. -/
instance {e a : Type} [DecidableEq e] [DecidableEq a] : DecidableEq (Except e a) :=
  fun x y =>
  match x, y with
  | .error u, .error v =>
    if h : u = v then isTrue (h ▸ rfl) else isFalse (fun hc => h (Except.error.inj hc))
  | .ok u, .ok v =>
    if h : u = v then isTrue (h ▸ rfl) else isFalse (fun hc => h (Except.ok.inj hc))
  | .error _, .ok _ => isFalse (fun hc => Except.noConfusion hc)
  | .ok _, .error _ => isFalse (fun hc => Except.noConfusion hc)

/-- Association-list model of Go `map[string]string`. -/
abbrev StrMap := List (String × String)

/-- Go map read `m[k]` with the string zero value `""` for a missing key. -/
def mapGetD (m : StrMap) (k : String) : String :=
  ((m.find? fun kv => kv.1 == k).map Prod.snd).getD ""

/-- Go map read `m[k]` as `(value, exists)`: `none` when the key is absent. -/
def mapGet? (m : StrMap) (k : String) : Option String :=
  (m.find? fun kv => kv.1 == k).map Prod.snd

namespace pocketid

/-- `pocketid.User` (part_003): a user object of the Pocket ID API. -/
structure User where
  id : String
  username : String
  email : String
  firstName : String
  lastName : String
  locale : String
  disabled : Bool
  isAdmin : Bool
  userGroups : List String
  customClaims : StrMap
deriving DecidableEq, Repr

/-- `pocketid.CreateUserRequest` (part_003). -/
structure CreateUserRequest where
  username : String
  email : String
  firstName : String
  lastName : String
  locale : String
  disabled : Bool
  isAdmin : Bool
  customClaims : StrMap
deriving DecidableEq, Repr

/-- `pocketid.UpdateUserRequest` (part_003): like create, without `isAdmin`. -/
structure UpdateUserRequest where
  username : String
  email : String
  firstName : String
  lastName : String
  locale : String
  disabled : Bool
  customClaims : StrMap
deriving DecidableEq, Repr

/-- `pocketid.Group` (oidcclients.go, second unit): a Pocket ID group. -/
structure Group where
  id : String
  groupName : String
  friendlyName : String
  customClaims : StrMap
deriving DecidableEq, Repr

/-- `pocketid.CreateGroupRequest`. -/
structure CreateGroupRequest where
  groupName : String
  friendlyName : String
  customClaims : StrMap
deriving DecidableEq, Repr

/-- `pocketid.UpdateGroupRequest`. -/
structure UpdateGroupRequest where
  groupName : String
  friendlyName : String
  customClaims : StrMap
deriving DecidableEq, Repr

/-- `pocketid.OIDCClient` (oidcclients.go); fields never read by the
embedded controllers (group claims, scopes, token TTLs) are omitted. -/
structure OIDCClient where
  id : String
  clientName : String
  clientSecret : String
  redirectURIs : List String
  postLogoutURIs : List String
  launchURL : String
  isPublic : Bool
  requirePKCE : Bool
  hasLogo : Bool
  groupNames : List String
deriving DecidableEq, Repr

/-- `pocketid.CreateOIDCClientRequest`, restricted to the fields the
oidcclient controller fills in. -/
structure CreateOIDCClientRequest where
  clientName : String
  redirectURIs : List String
  postLogoutURIs : List String
  launchURL : String
  isPublic : Bool
  requirePKCE : Bool
deriving DecidableEq, Repr

/-- `pocketid.UpdateOIDCClientRequest`, restricted likewise. -/
structure UpdateOIDCClientRequest where
  clientName : String
  redirectURIs : List String
  postLogoutURIs : List String
  launchURL : String
  isPublic : Bool
  requirePKCE : Bool
deriving DecidableEq, Repr

/-- An HTTP response as seen by the client layer (client.go). -/
structure HttpResponse where
  statusCode : Nat
  body : String
deriving DecidableEq, Repr

/-- The outcome of `httpClient.Do`: a transport error or a response. -/
abbrev HttpResult := Except Err HttpResponse

/-- `checkResponse` (client.go): any status `>= 400` is an API error,
otherwise the body is returned. -/
def checkResponse (resp : HttpResponse) : Except Err String :=
  if 400 ≤ resp.statusCode then
    .error (.msg ((("API error: HTTP " ++ toString resp.statusCode) ++ " - ") ++ resp.body))
  else
    .ok resp.body

/-- `Client.DeleteUser` (part_003), as a function of the response of its
single `DELETE /api/users/{id}` request: 404 is success ("already
deleted"), any other response goes through `checkResponse`. -/
def deleteUser (doResp : HttpResult) : Except Err Unit :=
  match doResp with
  | .error e => .error (.wrap ("failed to delete user") e)
  | .ok resp =>
    if resp.statusCode = 404 then .ok ()
    else (checkResponse resp).map fun _ => ()

/-- `Client.DeleteGroup` (oidcclients.go, second unit): 404 is success. -/
def deleteGroup (doResp : HttpResult) : Except Err Unit :=
  match doResp with
  | .error e => .error (.wrap ("failed to delete group") e)
  | .ok resp =>
    if resp.statusCode = 404 then .ok ()
    else (checkResponse resp).map fun _ => ()

/-- `Client.DeleteOIDCClient` (oidcclients.go): 404 is success. -/
def deleteOIDCClient (doResp : HttpResult) : Except Err Unit :=
  match doResp with
  | .error e => .error (.wrap ("failed to delete OIDC client") e)
  | .ok resp =>
    if resp.statusCode = 404 then .ok ()
    else (checkResponse resp).map fun _ => ()

/-- `Client.RemoveUserFromGroup` (part_002, groupbindings unit): 404 means
the binding does not exist, which is success. -/
def removeUserFromGroup (doResp : HttpResult) : Except Err Unit :=
  match doResp with
  | .error e => .error (.wrap ("failed to remove user from group") e)
  | .ok resp =>
    if resp.statusCode = 404 then .ok ()
    else (checkResponse resp).map fun _ => ()

/-- `Client.RemoveClientFromGroup` (part_002, groupbindings unit): 404
means the binding does not exist, which is success. -/
def removeClientFromGroup (doResp : HttpResult) : Except Err Unit :=
  match doResp with
  | .error e => .error (.wrap ("failed to remove client from group") e)
  | .ok resp =>
    if resp.statusCode = 404 then .ok ()
    else (checkResponse resp).map fun _ => ()

end pocketid

namespace v1alpha1

/-- `v1alpha1.AdminUserParameters` (adminuser_types.go). -/
structure AdminUserParameters where
  username : String
  email : String
  firstName : String
  lastName : String
  locale : String
  disabled : Bool
  customClaims : StrMap
deriving DecidableEq, Repr

/-- `v1alpha1.AdminUserObservation` (adminuser_types.go). -/
structure AdminUserObservation where
  id : String
  username : String
  email : String
  firstName : String
  lastName : String
  locale : String
  disabled : Bool
  isAdmin : Bool
  userGroups : List String
  customClaims : StrMap
deriving DecidableEq, Repr

/-- `v1alpha1.UserObservation` (user_types.go); identical field set. -/
structure UserObservation where
  id : String
  username : String
  email : String
  firstName : String
  lastName : String
  locale : String
  disabled : Bool
  isAdmin : Bool
  userGroups : List String
  customClaims : StrMap
deriving DecidableEq, Repr

/-- `v1alpha1.GroupParameters` (part_006). -/
structure GroupParameters where
  name : String
  friendlyName : String
  customClaims : StrMap
deriving DecidableEq, Repr

/-- `v1alpha1.GroupObservation` (part_006). -/
structure GroupObservation where
  id : String
  name : String
  friendlyName : String
  customClaims : StrMap
deriving DecidableEq, Repr

/-- `v1alpha1.OIDCClientParameters` (part_005), restricted to the fields
the oidcclient controller reads. -/
structure OIDCClientParameters where
  name : String
  callbackURLs : List String
  logoutCallbackURLs : List String
  launchURL : String
  isPublic : Bool
  pkceEnabled : Bool
  logoURL : String
deriving DecidableEq, Repr

/-- `v1alpha1.OIDCClientObservation` (part_005), restricted to the fields
the controllers write. -/
structure OIDCClientObservation where
  id : String
  name : String
  callbackURLs : List String
  logoutCallbackURLs : List String
  launchURL : String
  isPublic : Bool
  pkceEnabled : Bool
  hasLogo : Bool
deriving DecidableEq, Repr

/-- `v1alpha1.OIDCClientGroupBindingParameters`
(oidcclientgroupbinding_types.go).  A `*xpv1.Reference` is modelled as
`Option String` holding the referenced resource's name; the selector
fields are never read by the controller and are omitted. -/
structure OIDCClientGroupBindingParameters where
  clientID : String
  clientIDRef : Option String
  groupID : String
  groupIDRef : Option String
deriving DecidableEq, Repr

/-- `v1alpha1.UserGroupBindingParameters` (part_004), modelled likewise. -/
structure UserGroupBindingParameters where
  userID : String
  userIDRef : Option String
  groupID : String
  groupIDRef : Option String
deriving DecidableEq, Repr

/-- `v1alpha1.OIDCClientGroupBindingObservation`. -/
structure OIDCClientGroupBindingObservation where
  client : OIDCClientObservation
  group : GroupObservation
deriving DecidableEq, Repr

/-- `v1alpha1.UserGroupBindingObservation` (part_004). -/
structure UserGroupBindingObservation where
  user : UserObservation
  group : GroupObservation
deriving DecidableEq, Repr

end v1alpha1

/-- The only condition value the embedded controllers ever set is
`xpv1.Available()`. -/
inductive Condition where
  | available
deriving DecidableEq, Repr

/-- `managed.ExternalObservation`, restricted to the two fields the
controllers fill in. -/
structure ExternalObservation where
  resourceExists : Bool
  resourceUpToDate : Bool
deriving DecidableEq, Repr

/-- `managed.ExternalCreation`: connection details published on create. -/
structure ExternalCreation where
  connectionDetails : List (String × String)
deriving DecidableEq, Repr

/-- One remote Pocket ID API call, as recorded in a controller's trace. -/
inductive RemoteCall where
  | getUserByExternalName (name : String)
  | createUser (req : pocketid.CreateUserRequest)
  | updateUser (id : String) (req : pocketid.UpdateUserRequest)
  | deleteUser (id : String)
  | getUser (id : String)
  | getGroupByExternalName (name : String)
  | createGroup (req : pocketid.CreateGroupRequest)
  | updateGroup (id : String) (req : pocketid.UpdateGroupRequest)
  | deleteGroup (id : String)
  | getGroup (id : String)
  | getOIDCClientByExternalName (name : String)
  | createOIDCClient (req : pocketid.CreateOIDCClientRequest)
  | updateOIDCClient (id : String) (req : pocketid.UpdateOIDCClientRequest)
  | deleteOIDCClient (id : String)
  | getOIDCClient (id : String)
  | uploadOIDCClientLogo (id : String) (logoURL : String)
  | isClientInGroup (clientID : String) (groupID : String)
  | addClientToGroup (clientID : String) (groupID : String)
  | removeClientFromGroup (clientID : String) (groupID : String)
  | isUserInGroup (userID : String) (groupID : String)
  | addUserToGroup (userID : String) (groupID : String)
  | removeUserFromGroup (userID : String) (groupID : String)
deriving DecidableEq, Repr

/-- Response oracle for the `pocketid.Client`: for each operation and
argument tuple, the outcome the remote system would return.  `Option`
results render the Go `(nil, nil)` convention for 404 absence. -/
structure Api where
  getUserByExternalName : String → Except Err (Option pocketid.User)
  createUser : pocketid.CreateUserRequest → Except Err pocketid.User
  updateUser : String → pocketid.UpdateUserRequest → Except Err pocketid.User
  deleteUser : String → Except Err Unit
  getUser : String → Except Err (Option pocketid.User)
  getGroupByExternalName : String → Except Err (Option pocketid.Group)
  createGroup : pocketid.CreateGroupRequest → Except Err pocketid.Group
  updateGroup : String → pocketid.UpdateGroupRequest → Except Err pocketid.Group
  deleteGroup : String → Except Err Unit
  getGroup : String → Except Err (Option pocketid.Group)
  getOIDCClientByExternalName : String → Except Err (Option pocketid.OIDCClient)
  createOIDCClient : pocketid.CreateOIDCClientRequest → Except Err pocketid.OIDCClient
  updateOIDCClient : String → pocketid.UpdateOIDCClientRequest → Except Err pocketid.OIDCClient
  deleteOIDCClient : String → Except Err Unit
  getOIDCClient : String → Except Err (Option pocketid.OIDCClient)
  uploadOIDCClientLogo : String → String → Except Err Unit
  isClientInGroup : String → String → Except Err Bool
  addClientToGroup : String → String → Except Err Unit
  removeClientFromGroup : String → String → Except Err Unit
  isUserInGroup : String → String → Except Err Bool
  addUserToGroup : String → String → Except Err Unit
  removeUserFromGroup : String → String → Except Err Unit

/-- Outcome of one controller method: its Go return value (or error), the
custom resource as left behind (Go mutates `cr` in place), and the trace
of remote Pocket ID calls issued, in order. -/
structure Outcome (α ρ : Type) where
  res : Except Err α
  cr : ρ
  calls : List RemoteCall

/-- Health condition taxonomy. Modelled from the spec: the condition
values `{Available, Unavailable, InvariantViolated, Unresolved}` of §6.
The controllers under src/ surface the last three only as distinguished
error returns; the reconciler that records conditions on status lives in
crossplane-runtime, outside this repository. -/
inductive HealthCondition where
  | available
  | unavailable
  | invariantViolated
  | unresolved
deriving DecidableEq, Repr

/-- `errResolveClientID` (part_002, clientgroupbinding). -/
def errResolveClientID : String := "cannot resolve client ID"

/-- `errResolveGroupID` (part_002, clientgroupbinding). -/
def errResolveGroupID : String := "cannot resolve group ID"

/-- The usergroupbinding analogue of `errResolveClientID`.  Modelled from
the spec: the usergroupbinding controller is not under src/; §4.4 makes
it the member/container mirror of the clientgroupbinding controller. -/
def errResolveUserID : String := "cannot resolve user ID"

/-- `"user exists but is not an admin user"` (part_001, adminuser
Observe): the admin-invariant violation error. -/
def errNotAnAdmin : String := "user exists but is not an admin user"

/-- Modelled from the spec: §6/§7 health-condition classification of a
cycle result.  Reference-resolution failures (§4.1) are `Unresolved`,
the admin-invariant error (§4.3 edge-case policy) is
`InvariantViolated`, any other failure is `Unavailable`. -/
def healthOf {α : Type} : Except Err α → HealthCondition
  | .ok _ => .available
  | .error (.wrap c _) =>
    if c = errResolveClientID ∨ c = errResolveGroupID ∨ c = errResolveUserID then
      .unresolved
    else
      .unavailable
  | .error (.msg m) =>
    if m = errNotAnAdmin then .invariantViolated else .unavailable

namespace adminuser

/-- The `AdminUser` custom resource as the controller sees it: the
external-name annotation (`""` when unset), spec, status, condition. -/
structure AdminUser where
  externalName : String
  spec : v1alpha1.AdminUserParameters
  status : v1alpha1.AdminUserObservation
  condition : Option Condition
deriving DecidableEq, Repr

/-- `isAdminUserUpToDate` (part_001): field-by-field comparison of the
declared spec with the observed user; custom claims are compared by
length and per-key lookup with an existence check. -/
def isAdminUserUpToDate (spec : v1alpha1.AdminUserParameters)
    (user : pocketid.User) : Bool :=
  if spec.username ≠ user.username then false
  else if spec.email ≠ user.email then false
  else if spec.firstName ≠ user.firstName then false
  else if spec.lastName ≠ user.lastName then false
  else if spec.locale ≠ user.locale then false
  else if spec.disabled ≠ user.disabled then false
  else if spec.customClaims.length ≠ user.customClaims.length then false
  else spec.customClaims.all fun kv =>
    match mapGet? user.customClaims kv.1 with
    | none => false
    | some userVal => userVal == kv.2

/-- `external.Observe` for AdminUser (part_001): look the user up by the
external name (falling back to the declared username), reject non-admin
users, record observed fields on status, set the external name on first
match, and run the drift detector. -/
def observe (api : Api) (cr : AdminUser) :
    Outcome ExternalObservation AdminUser :=
  let externalName := if cr.externalName = "" then cr.spec.username else cr.externalName
  match api.getUserByExternalName externalName with
  | .error e =>
    ⟨.error (.wrap ("failed to get admin user") e), cr, [.getUserByExternalName externalName]⟩
  | .ok none =>
    ⟨.ok ⟨false, false⟩, cr, [.getUserByExternalName externalName]⟩
  | .ok (some user) =>
    if !user.isAdmin then
      ⟨.error (.msg errNotAnAdmin), cr, [.getUserByExternalName externalName]⟩
    else
      let cr' : AdminUser :=
        { cr with
          status := ⟨user.id, user.username, user.email, user.firstName,
                     user.lastName, user.locale, user.disabled, user.isAdmin,
                     user.userGroups, user.customClaims⟩,
          externalName := if cr.externalName = "" then user.username else cr.externalName,
          condition := some .available }
      ⟨.ok ⟨true, isAdminUserUpToDate cr.spec user⟩, cr', [.getUserByExternalName externalName]⟩

/-- `external.Create` for AdminUser (part_001): issue `CreateUser` with
`IsAdmin` hard-wired to `true`, then record the external name. -/
def create (api : Api) (cr : AdminUser) :
    Outcome ExternalCreation AdminUser :=
  let req : pocketid.CreateUserRequest :=
    { username := cr.spec.username, email := cr.spec.email,
      firstName := cr.spec.firstName, lastName := cr.spec.lastName,
      locale := cr.spec.locale, disabled := cr.spec.disabled,
      isAdmin := true, customClaims := cr.spec.customClaims }
  match api.createUser req with
  | .error e =>
    ⟨.error (.wrap ("failed to create admin user") e), cr, [.createUser req]⟩
  | .ok user =>
    ⟨.ok ⟨[]⟩, { cr with externalName := user.username }, [.createUser req]⟩

/-- `external.Update` for AdminUser (part_001): fail without any remote
call when no ID is recorded on status, otherwise issue `UpdateUser`. -/
def update (api : Api) (cr : AdminUser) : Outcome Unit AdminUser :=
  if cr.status.id = "" then
    ⟨.error (.msg ("admin user ID not found in status")), cr, []⟩
  else
    let req : pocketid.UpdateUserRequest :=
      { username := cr.spec.username, email := cr.spec.email,
        firstName := cr.spec.firstName, lastName := cr.spec.lastName,
        locale := cr.spec.locale, disabled := cr.spec.disabled,
        customClaims := cr.spec.customClaims }
    match api.updateUser cr.status.id req with
    | .error e =>
      ⟨.error (.wrap ("failed to update admin user") e), cr, [.updateUser cr.status.id req]⟩
    | .ok _ =>
      ⟨.ok (), cr, [.updateUser cr.status.id req]⟩

/-- `external.Delete` for AdminUser (part_001): only call `DeleteUser`
when an ID is recorded on status; otherwise do nothing and succeed. -/
def delete (api : Api) (cr : AdminUser) : Outcome Unit AdminUser :=
  if cr.status.id ≠ "" then
    match api.deleteUser cr.status.id with
    | .error e =>
      ⟨.error (.wrap ("failed to delete admin user") e), cr, [.deleteUser cr.status.id]⟩
    | .ok _ =>
      ⟨.ok (), cr, [.deleteUser cr.status.id]⟩
  else
    ⟨.ok (), cr, []⟩

end adminuser

namespace group

/-- The `Group` custom resource as the controller sees it. -/
structure GroupResource where
  externalName : String
  spec : v1alpha1.GroupParameters
  status : v1alpha1.GroupObservation
  condition : Option Condition
deriving DecidableEq, Repr

/-- `equalStringMaps` (part_002): length comparison, then a per-key value
comparison where a missing key reads as the zero value `""`. -/
def equalStringMaps (a b : StrMap) : Bool :=
  if a.length ≠ b.length then false
  else a.all fun kv => mapGetD b kv.1 == kv.2

/-- `isGroupUpToDate` (part_002): compare name, friendly name, and the
custom-claims maps via `equalStringMaps`. -/
def isGroupUpToDate (spec : v1alpha1.GroupParameters)
    (g : pocketid.Group) : Bool :=
  if spec.name ≠ g.groupName then false
  else if spec.friendlyName ≠ g.friendlyName then false
  else if !equalStringMaps spec.customClaims g.customClaims then false
  else true

/-- `external.Observe` for Group (part_002): look up by external name
(falling back to the declared group name), record observed fields, set
the external name on first match, and run the drift detector. -/
def observe (api : Api) (cr : GroupResource) :
    Outcome ExternalObservation GroupResource :=
  let externalName := if cr.externalName = "" then cr.spec.name else cr.externalName
  match api.getGroupByExternalName externalName with
  | .error e =>
    ⟨.error (.wrap ("failed to get group") e), cr, [.getGroupByExternalName externalName]⟩
  | .ok none =>
    ⟨.ok ⟨false, false⟩, cr, [.getGroupByExternalName externalName]⟩
  | .ok (some g) =>
    let cr' : GroupResource :=
      { cr with
        status := ⟨g.id, g.groupName, g.friendlyName, g.customClaims⟩,
        externalName := if cr.externalName = "" then g.groupName else cr.externalName,
        condition := some .available }
    ⟨.ok ⟨true, isGroupUpToDate cr.spec g⟩, cr', [.getGroupByExternalName externalName]⟩

/-- `external.Create` for Group (part_002). -/
def create (api : Api) (cr : GroupResource) :
    Outcome ExternalCreation GroupResource :=
  let req : pocketid.CreateGroupRequest :=
    { groupName := cr.spec.name, friendlyName := cr.spec.friendlyName,
      customClaims := cr.spec.customClaims }
  match api.createGroup req with
  | .error e =>
    ⟨.error (.wrap ("failed to create group") e), cr, [.createGroup req]⟩
  | .ok g =>
    ⟨.ok ⟨[]⟩, { cr with externalName := g.groupName }, [.createGroup req]⟩

/-- `external.Update` for Group (part_002): fail without any remote call
when no ID is recorded on status, otherwise issue `UpdateGroup`. -/
def update (api : Api) (cr : GroupResource) : Outcome Unit GroupResource :=
  if cr.status.id = "" then
    ⟨.error (.msg ("group ID not found in status")), cr, []⟩
  else
    let req : pocketid.UpdateGroupRequest :=
      { groupName := cr.spec.name, friendlyName := cr.spec.friendlyName,
        customClaims := cr.spec.customClaims }
    match api.updateGroup cr.status.id req with
    | .error e =>
      ⟨.error (.wrap ("failed to update group") e), cr, [.updateGroup cr.status.id req]⟩
    | .ok _ =>
      ⟨.ok (), cr, [.updateGroup cr.status.id req]⟩

/-- `external.Delete` for Group (part_002): only call `DeleteGroup` when
an ID is recorded on status; otherwise do nothing and succeed. -/
def delete (api : Api) (cr : GroupResource) : Outcome Unit GroupResource :=
  if cr.status.id ≠ "" then
    match api.deleteGroup cr.status.id with
    | .error e =>
      ⟨.error (.wrap ("failed to delete group") e), cr, [.deleteGroup cr.status.id]⟩
    | .ok _ =>
      ⟨.ok (), cr, [.deleteGroup cr.status.id]⟩
  else
    ⟨.ok (), cr, []⟩

end group

namespace oidcclient

/-- The `OIDCClient` custom resource as the controller sees it. -/
structure OIDCClientResource where
  externalName : String
  spec : v1alpha1.OIDCClientParameters
  status : v1alpha1.OIDCClientObservation
  condition : Option Condition
deriving DecidableEq, Repr

/-- `equalStringSlices` (part_002): length comparison, then occurrence
counts of the first slice checked against occurrence counts in the
second.  The Go code builds the count map `countA` (whose key set is the
set of distinct elements of `a`, here `a.dedup`) and reads `countB[k]`
with the zero value `0` for a missing key, which is `b.count k`. -/
def equalStringSlices (a b : List String) : Bool :=
  if a.length ≠ b.length then false
  else a.dedup.all fun k => b.count k == a.count k

/-- `isOIDCClientUpToDate` (part_002): scalar fields by equality, URI
slices via `equalStringSlices`; the logo is handled separately and does
not affect the up-to-date status. -/
def isOIDCClientUpToDate (spec : v1alpha1.OIDCClientParameters)
    (client : pocketid.OIDCClient) : Bool :=
  if spec.name ≠ client.clientName then false
  else if spec.launchURL ≠ client.launchURL then false
  else if spec.isPublic ≠ client.isPublic then false
  else if spec.pkceEnabled ≠ client.requirePKCE then false
  else if !equalStringSlices spec.callbackURLs client.redirectURIs then false
  else if !equalStringSlices spec.logoutCallbackURLs client.postLogoutURIs then false
  else true

/-- `external.Observe` for OIDCClient (part_002): look up by external
name (falling back to the declared display name), record observed
fields, set the external name on first match, run the drift detector. -/
def observe (api : Api) (cr : OIDCClientResource) :
    Outcome ExternalObservation OIDCClientResource :=
  let externalName := if cr.externalName = "" then cr.spec.name else cr.externalName
  match api.getOIDCClientByExternalName externalName with
  | .error e =>
    ⟨.error (.wrap ("failed to get OIDC client") e), cr, [.getOIDCClientByExternalName externalName]⟩
  | .ok none =>
    ⟨.ok ⟨false, false⟩, cr, [.getOIDCClientByExternalName externalName]⟩
  | .ok (some client) =>
    let cr' : OIDCClientResource :=
      { cr with
        status := ⟨client.id, client.clientName, client.redirectURIs,
                   client.postLogoutURIs, client.launchURL, client.isPublic,
                   client.requirePKCE, client.hasLogo⟩,
        externalName := if cr.externalName = "" then client.clientName else cr.externalName,
        condition := some .available }
    ⟨.ok ⟨true, isOIDCClientUpToDate cr.spec client⟩, cr',
      [.getOIDCClientByExternalName externalName]⟩

/-- `external.Create` for OIDCClient (part_002): issue
`CreateOIDCClient`; on success record the external name, attempt the
logo upload when `LogoURL` is set — its error is discarded — and publish
the client secret of a confidential client as a connection detail. -/
def create (api : Api) (cr : OIDCClientResource) :
    Outcome ExternalCreation OIDCClientResource :=
  let req : pocketid.CreateOIDCClientRequest :=
    { clientName := cr.spec.name, redirectURIs := cr.spec.callbackURLs,
      postLogoutURIs := cr.spec.logoutCallbackURLs,
      launchURL := cr.spec.launchURL, isPublic := cr.spec.isPublic,
      requirePKCE := cr.spec.pkceEnabled }
  match api.createOIDCClient req with
  | .error e =>
    ⟨.error (.wrap ("failed to create OIDC client") e), cr, [.createOIDCClient req]⟩
  | .ok client =>
    let cr' := { cr with externalName := client.clientName }
    let logoCalls :=
      if cr.spec.logoURL ≠ "" then [RemoteCall.uploadOIDCClientLogo client.id cr.spec.logoURL]
      else []
    let connectionDetails :=
      if !client.isPublic ∧ client.clientSecret ≠ "" then
        [(("clientSecret" : String), client.clientSecret)]
      else []
    ⟨.ok ⟨connectionDetails⟩, cr', .createOIDCClient req :: logoCalls⟩

/-- `external.Update` for OIDCClient (part_002): fail without any remote
call when no ID is recorded on status; otherwise issue
`UpdateOIDCClient`, and on success attempt the logo upload whenever
`LogoURL` is set — its error is discarded. -/
def update (api : Api) (cr : OIDCClientResource) :
    Outcome Unit OIDCClientResource :=
  if cr.status.id = "" then
    ⟨.error (.msg ("OIDC client ID not found in status")), cr, []⟩
  else
    let req : pocketid.UpdateOIDCClientRequest :=
      { clientName := cr.spec.name, redirectURIs := cr.spec.callbackURLs,
        postLogoutURIs := cr.spec.logoutCallbackURLs,
        launchURL := cr.spec.launchURL, isPublic := cr.spec.isPublic,
        requirePKCE := cr.spec.pkceEnabled }
    match api.updateOIDCClient cr.status.id req with
    | .error e =>
      ⟨.error (.wrap ("failed to update OIDC client") e), cr, [.updateOIDCClient cr.status.id req]⟩
    | .ok _ =>
      let logoCalls :=
        if cr.spec.logoURL ≠ "" then [RemoteCall.uploadOIDCClientLogo cr.status.id cr.spec.logoURL]
        else []
      ⟨.ok (), cr, .updateOIDCClient cr.status.id req :: logoCalls⟩

/-- `external.Delete` for OIDCClient (part_002): only call
`DeleteOIDCClient` when an ID is recorded on status. -/
def delete (api : Api) (cr : OIDCClientResource) :
    Outcome Unit OIDCClientResource :=
  if cr.status.id ≠ "" then
    match api.deleteOIDCClient cr.status.id with
    | .error e =>
      ⟨.error (.wrap ("failed to delete OIDC client") e), cr, [.deleteOIDCClient cr.status.id]⟩
    | .ok _ =>
      ⟨.ok (), cr, [.deleteOIDCClient cr.status.id]⟩
  else
    ⟨.ok (), cr, []⟩

end oidcclient

/-- The Kubernetes client as the binding controllers use it: `Get` by
resource name, where an error (including not-found) is an `Err`. -/
structure Kube where
  getOIDCClient : String → Except Err oidcclient.OIDCClientResource
  getGroup : String → Except Err group.GroupResource
  getUser : String → Except Err adminuser.AdminUser

namespace clientgroupbinding

/-- The `OIDCClientGroupBinding` custom resource as the controller sees it. -/
structure ClientGroupBinding where
  externalName : String
  spec : v1alpha1.OIDCClientGroupBindingParameters
  status : v1alpha1.OIDCClientGroupBindingObservation
  condition : Option Condition
deriving DecidableEq, Repr

/-- `resolveClientID` (part_002): a literal `ClientID` wins; otherwise a
`ClientIDRef` is resolved by fetching the referenced OIDCClient resource
and reading its `Status.AtProvider.ID`, failing when that is empty;
selector resolution is unimplemented and falls through to an error. -/
def resolveClientID (kube : Kube) (cr : ClientGroupBinding) :
    Except Err String :=
  if cr.spec.clientID ≠ "" then .ok cr.spec.clientID
  else
    match cr.spec.clientIDRef with
    | some ref =>
      match kube.getOIDCClient ref with
      | .error e => .error (.wrap ("failed to get referenced OIDC client") e)
      | .ok oidcClient =>
        if oidcClient.status.id = "" then
          .error (.msg ("referenced OIDC client ID is not available"))
        else .ok oidcClient.status.id
    | none => .error (.msg ("client ID, clientIdRef, or clientIdSelector must be specified"))

/-- `resolveGroupID` (part_002): the group-side mirror of
`resolveClientID`. -/
def resolveGroupID (kube : Kube) (cr : ClientGroupBinding) :
    Except Err String :=
  if cr.spec.groupID ≠ "" then .ok cr.spec.groupID
  else
    match cr.spec.groupIDRef with
    | some ref =>
      match kube.getGroup ref with
      | .error e => .error (.wrap ("failed to get referenced group") e)
      | .ok g =>
        if g.status.id = "" then
          .error (.msg ("referenced group ID is not available"))
        else .ok g.status.id
    | none => .error (.msg ("group ID, groupIdRef, or groupIdSelector must be specified"))

/-- Render a `pocketid.OIDCClient` as the observation the controller
writes on status. -/
def clientObservation (client : pocketid.OIDCClient) :
    v1alpha1.OIDCClientObservation :=
  ⟨client.id, client.clientName, client.redirectURIs, client.postLogoutURIs,
   client.launchURL, client.isPublic, client.requirePKCE, client.hasLogo⟩

/-- Render a `pocketid.Group` as the observation the controller writes
on status. -/
def groupObservation (g : pocketid.Group) : v1alpha1.GroupObservation :=
  ⟨g.id, g.groupName, g.friendlyName, g.customClaims⟩

/-- `external.Observe` for OIDCClientGroupBinding (part_002): resolve
both references first — either failure aborts the cycle before any
remote Pocket ID call — then query the membership; when it exists, fetch
client and group for status and report the binding as up to date.  The
Go code dereferences the fetched client and group without a nil check,
so a 404 on either fetch is rendered as the runtime panic error. -/
def observe (api : Api) (kube : Kube) (cr : ClientGroupBinding) :
    Outcome ExternalObservation ClientGroupBinding :=
  match resolveClientID kube cr with
  | .error e => ⟨.error (.wrap errResolveClientID e), cr, []⟩
  | .ok clientID =>
    match resolveGroupID kube cr with
    | .error e => ⟨.error (.wrap errResolveGroupID e), cr, []⟩
    | .ok groupID =>
      match api.isClientInGroup clientID groupID with
      | .error e =>
        ⟨.error (.wrap ("failed to check client group binding") e), cr,
         [.isClientInGroup clientID groupID]⟩
      | .ok false =>
        ⟨.ok ⟨false, false⟩, cr, [.isClientInGroup clientID groupID]⟩
      | .ok true =>
        match api.getOIDCClient clientID with
        | .error e =>
          ⟨.error (.wrap ("failed to get OIDC client") e), cr,
           [.isClientInGroup clientID groupID, .getOIDCClient clientID]⟩
        | .ok none =>
          ⟨.error (.msg ("runtime error: invalid memory address or nil pointer dereference")), cr,
           [.isClientInGroup clientID groupID, .getOIDCClient clientID]⟩
        | .ok (some client) =>
          match api.getGroup groupID with
          | .error e =>
            ⟨.error (.wrap ("failed to get group") e), cr,
             [.isClientInGroup clientID groupID, .getOIDCClient clientID, .getGroup groupID]⟩
          | .ok none =>
            ⟨.error (.msg ("runtime error: invalid memory address or nil pointer dereference")), cr,
             [.isClientInGroup clientID groupID, .getOIDCClient clientID, .getGroup groupID]⟩
          | .ok (some g) =>
            let cr' : ClientGroupBinding :=
              { cr with
                status := ⟨clientObservation client, groupObservation g⟩,
                externalName :=
                  if cr.externalName = "" then (clientID ++ ":") ++ groupID
                  else cr.externalName,
                condition := some .available }
            ⟨.ok ⟨true, true⟩, cr',
             [.isClientInGroup clientID groupID, .getOIDCClient clientID, .getGroup groupID]⟩

/-- `external.Create` for OIDCClientGroupBinding (part_002): resolve
both references, then issue the association call and record the
combined external name. -/
def create (api : Api) (kube : Kube) (cr : ClientGroupBinding) :
    Outcome ExternalCreation ClientGroupBinding :=
  match resolveClientID kube cr with
  | .error e => ⟨.error (.wrap errResolveClientID e), cr, []⟩
  | .ok clientID =>
    match resolveGroupID kube cr with
    | .error e => ⟨.error (.wrap errResolveGroupID e), cr, []⟩
    | .ok groupID =>
      match api.addClientToGroup clientID groupID with
      | .error e =>
        ⟨.error (.wrap ("failed to create client group binding") e), cr,
         [.addClientToGroup clientID groupID]⟩
      | .ok _ =>
        ⟨.ok ⟨[]⟩, { cr with externalName := (clientID ++ ":") ++ groupID },
         [.addClientToGroup clientID groupID]⟩

/-- `external.Update` for OIDCClientGroupBinding (part_002): bindings
have no updatable fields, so this is a no-op returning success. -/
def update (cr : ClientGroupBinding) : Outcome Unit ClientGroupBinding :=
  ⟨.ok (), cr, []⟩

/-- `external.Delete` for OIDCClientGroupBinding (part_002): resolve
both references, then issue the dissociation call. -/
def delete (api : Api) (kube : Kube) (cr : ClientGroupBinding) :
    Outcome Unit ClientGroupBinding :=
  match resolveClientID kube cr with
  | .error e => ⟨.error (.wrap errResolveClientID e), cr, []⟩
  | .ok clientID =>
    match resolveGroupID kube cr with
    | .error e => ⟨.error (.wrap errResolveGroupID e), cr, []⟩
    | .ok groupID =>
      match api.removeClientFromGroup clientID groupID with
      | .error e =>
        ⟨.error (.wrap ("failed to delete client group binding") e), cr,
         [.removeClientFromGroup clientID groupID]⟩
      | .ok _ =>
        ⟨.ok (), cr, [.removeClientFromGroup clientID groupID]⟩

end clientgroupbinding

namespace usergroupbinding

/-- The `UserGroupBinding` custom resource (types from part_004). -/
structure UserGroupBinding where
  externalName : String
  spec : v1alpha1.UserGroupBindingParameters
  status : v1alpha1.UserGroupBindingObservation
  condition : Option Condition
deriving DecidableEq, Repr

/-- Modelled from the spec: the usergroupbinding controller is not under
src/ (only its API types, part_004, are); §4.4 makes it the member
mirror of the clientgroupbinding controller, so `resolveUserID` is
`resolveClientID` with the referenced User resource's
`Status.AtProvider.ID` supplying the value. -/
def resolveUserID (kube : Kube) (cr : UserGroupBinding) :
    Except Err String :=
  if cr.spec.userID ≠ "" then .ok cr.spec.userID
  else
    match cr.spec.userIDRef with
    | some ref =>
      match kube.getUser ref with
      | .error e => .error (.wrap ("failed to get referenced user") e)
      | .ok user =>
        if user.status.id = "" then
          .error (.msg ("referenced user ID is not available"))
        else .ok user.status.id
    | none => .error (.msg ("user ID, userIdRef, or userIdSelector must be specified"))

/-- Modelled from the spec: the container-side resolution of the
usergroupbinding controller, the mirror of
`clientgroupbinding.resolveGroupID`. -/
def resolveGroupID (kube : Kube) (cr : UserGroupBinding) :
    Except Err String :=
  if cr.spec.groupID ≠ "" then .ok cr.spec.groupID
  else
    match cr.spec.groupIDRef with
    | some ref =>
      match kube.getGroup ref with
      | .error e => .error (.wrap ("failed to get referenced group") e)
      | .ok g =>
        if g.status.id = "" then
          .error (.msg ("referenced group ID is not available"))
        else .ok g.status.id
    | none => .error (.msg ("group ID, groupIdRef, or groupIdSelector must be specified"))

/-- Render a `pocketid.User` as the observation written on status. -/
def userObservation (user : pocketid.User) : v1alpha1.UserObservation :=
  ⟨user.id, user.username, user.email, user.firstName, user.lastName,
   user.locale, user.disabled, user.isAdmin, user.userGroups, user.customClaims⟩

/-- Modelled from the spec: `external.Observe` of the usergroupbinding
controller, mirroring `clientgroupbinding.observe` (§4.4): both
references are resolved before any membership call, existence is the
compound membership query, and a confirmed binding is always up to
date. -/
def observe (api : Api) (kube : Kube) (cr : UserGroupBinding) :
    Outcome ExternalObservation UserGroupBinding :=
  match resolveUserID kube cr with
  | .error e => ⟨.error (.wrap errResolveUserID e), cr, []⟩
  | .ok userID =>
    match resolveGroupID kube cr with
    | .error e => ⟨.error (.wrap errResolveGroupID e), cr, []⟩
    | .ok groupID =>
      match api.isUserInGroup userID groupID with
      | .error e =>
        ⟨.error (.wrap ("failed to check user group binding") e), cr,
         [.isUserInGroup userID groupID]⟩
      | .ok false =>
        ⟨.ok ⟨false, false⟩, cr, [.isUserInGroup userID groupID]⟩
      | .ok true =>
        match api.getUser userID with
        | .error e =>
          ⟨.error (.wrap ("failed to get user") e), cr,
           [.isUserInGroup userID groupID, .getUser userID]⟩
        | .ok none =>
          ⟨.error (.msg ("runtime error: invalid memory address or nil pointer dereference")), cr,
           [.isUserInGroup userID groupID, .getUser userID]⟩
        | .ok (some user) =>
          match api.getGroup groupID with
          | .error e =>
            ⟨.error (.wrap ("failed to get group") e), cr,
             [.isUserInGroup userID groupID, .getUser userID, .getGroup groupID]⟩
          | .ok none =>
            ⟨.error (.msg ("runtime error: invalid memory address or nil pointer dereference")), cr,
             [.isUserInGroup userID groupID, .getUser userID, .getGroup groupID]⟩
          | .ok (some g) =>
            let cr' : UserGroupBinding :=
              { cr with
                status := ⟨userObservation user, clientgroupbinding.groupObservation g⟩,
                externalName :=
                  if cr.externalName = "" then (userID ++ ":") ++ groupID
                  else cr.externalName,
                condition := some .available }
            ⟨.ok ⟨true, true⟩, cr',
             [.isUserInGroup userID groupID, .getUser userID, .getGroup groupID]⟩

/-- Modelled from the spec: `external.Create` of the usergroupbinding
controller (§4.4): resolve both references, then issue the association
call. -/
def create (api : Api) (kube : Kube) (cr : UserGroupBinding) :
    Outcome ExternalCreation UserGroupBinding :=
  match resolveUserID kube cr with
  | .error e => ⟨.error (.wrap errResolveUserID e), cr, []⟩
  | .ok userID =>
    match resolveGroupID kube cr with
    | .error e => ⟨.error (.wrap errResolveGroupID e), cr, []⟩
    | .ok groupID =>
      match api.addUserToGroup userID groupID with
      | .error e =>
        ⟨.error (.wrap ("failed to create user group binding") e), cr,
         [.addUserToGroup userID groupID]⟩
      | .ok _ =>
        ⟨.ok ⟨[]⟩, { cr with externalName := (userID ++ ":") ++ groupID },
         [.addUserToGroup userID groupID]⟩

/-- Modelled from the spec: `external.Delete` of the usergroupbinding
controller (§4.4): resolve both references, then issue the dissociation
call. -/
def delete (api : Api) (kube : Kube) (cr : UserGroupBinding) :
    Outcome Unit UserGroupBinding :=
  match resolveUserID kube cr with
  | .error e => ⟨.error (.wrap errResolveUserID e), cr, []⟩
  | .ok userID =>
    match resolveGroupID kube cr with
    | .error e => ⟨.error (.wrap errResolveGroupID e), cr, []⟩
    | .ok groupID =>
      match api.removeUserFromGroup userID groupID with
      | .error e =>
        ⟨.error (.wrap ("failed to delete user group binding") e), cr,
         [.removeUserFromGroup userID groupID]⟩
      | .ok _ =>
        ⟨.ok (), cr, [.removeUserFromGroup userID groupID]⟩

end usergroupbinding

/-- Membership-related remote calls: the compound membership query and
the association/dissociation mutations of both binding kinds. -/
def RemoteCall.isMembershipCall : RemoteCall → Bool
  | .isClientInGroup _ _ => true
  | .addClientToGroup _ _ => true
  | .removeClientFromGroup _ _ => true
  | .isUserInGroup _ _ => true
  | .addUserToGroup _ _ => true
  | .removeUserFromGroup _ _ => true
  | _ => false

/-- Remote calls that mutate the external system. -/
def RemoteCall.isMutation : RemoteCall → Bool
  | .createUser _ => true
  | .updateUser _ _ => true
  | .deleteUser _ => true
  | .createGroup _ => true
  | .updateGroup _ _ => true
  | .deleteGroup _ => true
  | .createOIDCClient _ => true
  | .updateOIDCClient _ _ => true
  | .deleteOIDCClient _ => true
  | .uploadOIDCClientLogo _ _ => true
  | .addClientToGroup _ _ => true
  | .removeClientFromGroup _ _ => true
  | .addUserToGroup _ _ => true
  | .removeUserFromGroup _ _ => true
  | _ => false

/-- A response oracle used to instantiate theorems on concrete inputs:
lookups find nothing, creations succeed and echo the request, updates
fail, the logo upload fails. -/
def apiStub : Api where
  getUserByExternalName := fun _ => .ok none
  createUser := fun req =>
    .ok ⟨("u-1"), req.username, req.email, req.firstName, req.lastName,
         req.locale, req.disabled, req.isAdmin, [], req.customClaims⟩
  updateUser := fun _ _ => .error (.msg ("stub"))
  deleteUser := fun _ => .ok ()
  getUser := fun _ => .ok none
  getGroupByExternalName := fun _ => .ok none
  createGroup := fun req =>
    .ok ⟨("g-1"), req.groupName, req.friendlyName, req.customClaims⟩
  updateGroup := fun _ _ => .error (.msg ("stub"))
  deleteGroup := fun _ => .ok ()
  getGroup := fun _ => .ok none
  getOIDCClientByExternalName := fun _ => .ok none
  createOIDCClient := fun req =>
    .ok ⟨("c-1"), req.clientName, (""), req.redirectURIs, req.postLogoutURIs,
         req.launchURL, req.isPublic, req.requirePKCE, false, []⟩
  updateOIDCClient := fun _ _ => .error (.msg ("stub"))
  deleteOIDCClient := fun _ => .ok ()
  getOIDCClient := fun _ => .ok none
  uploadOIDCClientLogo := fun _ _ => .error (.msg ("upload failed"))
  isClientInGroup := fun _ _ => .ok false
  addClientToGroup := fun _ _ => .ok ()
  removeClientFromGroup := fun _ _ => .ok ()
  isUserInGroup := fun _ _ => .ok false
  addUserToGroup := fun _ _ => .ok ()
  removeUserFromGroup := fun _ _ => .ok ()

/-- A Kubernetes oracle for concrete instantiations: every `Get` fails. -/
def kubeStub : Kube where
  getOIDCClient := fun _ => .error (.msg ("not found"))
  getGroup := fun _ => .error (.msg ("not found"))
  getUser := fun _ => .error (.msg ("not found"))

/-- A concrete AdminUser resource with no external name and no status. -/
def adminUserCR0 : adminuser.AdminUser :=
  ⟨(""), ⟨("alice"), ("alice@example.com"), ("Alice"), ("A"), ("en"), false, []⟩,
   ⟨(""), (""), (""), (""), (""), (""), false, false, [], []⟩, none⟩

/-- A concrete Group resource with no external name and no status. -/
def groupCR0 : group.GroupResource :=
  ⟨(""), ⟨("eng"), ("Engineering"), []⟩, ⟨(""), (""), (""), []⟩, none⟩

/-- A concrete OIDCClient resource with no external name and no status. -/
def oidcClientCR0 : oidcclient.OIDCClientResource :=
  ⟨(""), ⟨("app"), [("https://a/cb")], [], ("https://a"), false, true, ("")⟩,
   ⟨(""), (""), [], [], (""), false, false, false⟩, none⟩

/-- `equalStringSlices` decides multiset equality: it returns `true`
exactly when the two slices are permutations of one another. -/
theorem equalStringSlices_eq_true_iff (a b : List String) :
    oidcclient.equalStringSlices a b = true
      ↔ (a : Multiset String) = (b : Multiset String) := by
  unfold oidcclient.equalStringSlices
  by_cases hl : a.length = b.length
  · rw [if_neg (by simp [hl]), List.all_eq_true]
    constructor
    · intro h
      have hsub : a.Subperm b := by
        rw [List.subperm_ext_iff]
        intro x hx
        have hx' := h x (List.mem_dedup.mpr hx)
        have hcount : b.count x = a.count x := by simpa using hx'
        exact Nat.le_of_eq hcount.symm
      exact Multiset.coe_eq_coe.mpr (hsub.perm_of_length_le (Nat.le_of_eq hl.symm))
    · intro h x hx
      have hperm : a.Perm b := Multiset.coe_eq_coe.mp h
      simp [hperm.count_eq x]
  · rw [if_pos (by simpa using hl)]
    simp only [Bool.false_eq_true, false_iff]
    intro h
    exact hl (Multiset.coe_eq_coe.mp h).length_eq

/-- `equalStringSlices` only depends on its arguments up to permutation. -/
theorem equalStringSlices_congr (a a' b b' : List String)
    (ha : (a : Multiset String) = (a' : Multiset String))
    (hb : (b : Multiset String) = (b' : Multiset String)) :
    oidcclient.equalStringSlices a b = oidcclient.equalStringSlices a' b' := by
  have h1 := equalStringSlices_eq_true_iff a b
  have h2 := equalStringSlices_eq_true_iff a' b'
  rw [ha, hb] at h1
  cases hab : oidcclient.equalStringSlices a b <;>
    cases hab' : oidcclient.equalStringSlices a' b' <;> simp_all

/-- C2. The claim states the group drift detector's map comparison
returns true iff the maps have the same key set and identical values per
key, and in particular false for equal-size maps with different key
sets.  The code violates the "only if" half: `equalStringMaps` reads
`b[k]` with the Go zero value `""` for a missing key, so the equal-size
maps `{"x": ""}` and `{"y": ""}` — different key sets — compare equal,
and `isGroupUpToDate` consequently misses the drift, contradicting the
function's own stated purpose of comparing the maps for equality. -/
theorem c2_equalStringMaps_true_on_different_key_sets :
    group.equalStringMaps [(("x"), (""))] [(("y"), (""))] = true
    ∧ List.map Prod.fst [(("x" : String), ("" : String))]
        ≠ List.map Prod.fst [(("y" : String), ("" : String))]
    ∧ group.isGroupUpToDate ⟨("eng"), ("Engineering"), [(("x"), (""))]⟩
        ⟨("g-1"), ("eng"), ("Engineering"), [(("y"), (""))]⟩ = true := by
  refine ⟨by decide, by decide, by decide⟩

/-- C3. For every resource kind (user, group, OIDC client, and both
membership bindings), the client's delete/dissociate operation treats a
remote 404 Not Found as success: it returns no error. -/
theorem c3_delete_absent_is_success (resp : pocketid.HttpResponse)
    (h : resp.statusCode = 404) :
    pocketid.deleteUser (.ok resp) = .ok ()
    ∧ pocketid.deleteGroup (.ok resp) = .ok ()
    ∧ pocketid.deleteOIDCClient (.ok resp) = .ok ()
    ∧ pocketid.removeClientFromGroup (.ok resp) = .ok ()
    ∧ pocketid.removeUserFromGroup (.ok resp) = .ok () := by
  simp [pocketid.deleteUser, pocketid.deleteGroup, pocketid.deleteOIDCClient,
        pocketid.removeClientFromGroup, pocketid.removeUserFromGroup, h]

/-- Witness for C3 at the concrete response `404` with an empty body. -/
theorem c3_delete_absent_is_success_witness :
    pocketid.deleteUser (.ok ⟨404, ("")⟩) = .ok ()
    ∧ pocketid.deleteGroup (.ok ⟨404, ("")⟩) = .ok ()
    ∧ pocketid.deleteOIDCClient (.ok ⟨404, ("")⟩) = .ok ()
    ∧ pocketid.removeClientFromGroup (.ok ⟨404, ("")⟩) = .ok ()
    ∧ pocketid.removeUserFromGroup (.ok ⟨404, ("")⟩) = .ok () :=
  c3_delete_absent_is_success ⟨404, ("")⟩ rfl

/-- C4. The OIDC client drift detector's slice comparison returns true
exactly when its arguments are equal as multisets (same length, same
per-element multiplicity), so `isOIDCClientUpToDate` is invariant under
any permutation of the declared callback URLs or of the observed
redirect URIs. -/
theorem c4_slice_comparison_is_multiset_equality
    (a b : List String) (spec : v1alpha1.OIDCClientParameters)
    (client : pocketid.OIDCClient) (uris vris : List String)
    (hu : (uris : Multiset String) = (spec.callbackURLs : Multiset String))
    (hv : (vris : Multiset String) = (client.redirectURIs : Multiset String)) :
    (oidcclient.equalStringSlices a b = true
        ↔ (a : Multiset String) = (b : Multiset String))
    ∧ oidcclient.isOIDCClientUpToDate { spec with callbackURLs := uris } client
        = oidcclient.isOIDCClientUpToDate spec client
    ∧ oidcclient.isOIDCClientUpToDate spec { client with redirectURIs := vris }
        = oidcclient.isOIDCClientUpToDate spec client := by
  refine ⟨equalStringSlices_eq_true_iff a b, ?_, ?_⟩
  · obtain ⟨n, cb, lcb, lu, ip, pk, lo⟩ := spec
    simp only at hu
    simp only [oidcclient.isOIDCClientUpToDate]
    rw [equalStringSlices_congr uris cb client.redirectURIs client.redirectURIs hu rfl]
  · obtain ⟨i, n, cs, ru, plu, lu, ip, pk, hl, gn⟩ := client
    simp only at hv
    simp only [oidcclient.isOIDCClientUpToDate]
    rw [equalStringSlices_congr spec.callbackURLs spec.callbackURLs vris ru rfl hv]

/-- A concrete spec with declared callback URLs `[a, b]`. -/
def oidcSpecAB : v1alpha1.OIDCClientParameters :=
  ⟨("app"), [("a"), ("b")], [], (""), false, false, ("")⟩

/-- A concrete observed client with redirect URIs `[a, b]`. -/
def oidcClientAB : pocketid.OIDCClient :=
  ⟨("c-1"), ("app"), (""), [("a"), ("b")], [], (""), false, false, false, []⟩

/-- Witness for C4 at the concrete slices of the spec's example:
declared `[a, b]` against observed `[b, a]`. -/
theorem c4_slice_comparison_is_multiset_equality_witness :
    (oidcclient.equalStringSlices [("a"), ("b")] [("b"), ("a")] = true
        ↔ (([("a"), ("b")] : List String) : Multiset String)
            = (([("b"), ("a")] : List String) : Multiset String))
    ∧ oidcclient.isOIDCClientUpToDate
        { oidcSpecAB with callbackURLs := [("b"), ("a")] } oidcClientAB
        = oidcclient.isOIDCClientUpToDate oidcSpecAB oidcClientAB
    ∧ oidcclient.isOIDCClientUpToDate oidcSpecAB
        { oidcClientAB with redirectURIs := [("b"), ("a")] }
        = oidcclient.isOIDCClientUpToDate oidcSpecAB oidcClientAB :=
  c4_slice_comparison_is_multiset_equality
    [("a"), ("b")] [("b"), ("a")] oidcSpecAB oidcClientAB
    [("b"), ("a")] [("b"), ("a")] (by decide) (by decide)

/-- C10. The AdminUser Create operation hard-wires `IsAdmin` to `true`
in the `CreateUserRequest`: every create-user call it ever issues
carries the admin flag, regardless of the declared spec. -/
theorem c10_adminuser_create_always_admin (api : Api)
    (cr : adminuser.AdminUser) (req : pocketid.CreateUserRequest)
    (h : RemoteCall.createUser req ∈ (adminuser.create api cr).calls) :
    req.isAdmin = true := by
  simp only [adminuser.create] at h
  rcases hc : api.createUser
      { username := cr.spec.username, email := cr.spec.email,
        firstName := cr.spec.firstName, lastName := cr.spec.lastName,
        locale := cr.spec.locale, disabled := cr.spec.disabled,
        isAdmin := true, customClaims := cr.spec.customClaims } with _ | u <;>
    rw [hc] at h <;> simp_all

/-- Witness for C10: the single create-user call issued for the concrete
resource `adminUserCR0` carries `isAdmin = true`. -/
theorem c10_adminuser_create_always_admin_witness :
    ({ username := ("alice"), email := ("alice@example.com"),
       firstName := ("Alice"), lastName := ("A"), locale := ("en"),
       disabled := false, isAdmin := true,
       customClaims := [] } : pocketid.CreateUserRequest).isAdmin = true :=
  c10_adminuser_create_always_admin apiStub adminUserCR0 _ (by decide)

/-- C5. Once the external name is set on an AdminUser, changing the
declared username does not change the lookup key used by Observe — the
sole remote call still queries the recorded external name, and the
external name left on the resource is unchanged in every branch — while
the drift detector reports a mismatch whenever the observed username
differs from the new declared one. -/
theorem c5_stable_external_name (api : Api) (cr : adminuser.AdminUser)
    (u' : String) (user : pocketid.User)
    (hx : cr.externalName ≠ "") (hu : user.username ≠ u') :
    (adminuser.observe api { cr with spec := { cr.spec with username := u' } }).calls
      = [.getUserByExternalName cr.externalName]
    ∧ (adminuser.observe api { cr with spec := { cr.spec with username := u' } }).cr.externalName
      = cr.externalName
    ∧ adminuser.isAdminUserUpToDate { cr.spec with username := u' } user = false := by
  obtain ⟨en, spec, st, cond⟩ := cr
  simp only at hx
  refine ⟨?_, ?_, ?_⟩
  · simp only [adminuser.observe]
    rw [if_neg hx]
    cases api.getUserByExternalName en with
    | error e => rfl
    | ok o =>
      cases o with
      | none => rfl
      | some user' => by_cases hA : user'.isAdmin <;> simp [hA, hx]
  · simp only [adminuser.observe]
    rw [if_neg hx]
    cases api.getUserByExternalName en with
    | error e => rfl
    | ok o =>
      cases o with
      | none => rfl
      | some user' => by_cases hA : user'.isAdmin <;> simp [hA, hx]
  · have hne : u' ≠ user.username := Ne.symm hu
    simp [adminuser.isAdminUserUpToDate, hne]

/-- Witness for C5: external name `alice` recorded, username changed to
`bob`, observed user still named `alice`. -/
theorem c5_stable_external_name_witness :
    (adminuser.observe apiStub
        { { adminUserCR0 with externalName := ("alice") } with
          spec := { { adminUserCR0 with externalName := ("alice") }.spec with
                    username := ("bob") } }).calls
      = [.getUserByExternalName ("alice")]
    ∧ (adminuser.observe apiStub
        { { adminUserCR0 with externalName := ("alice") } with
          spec := { { adminUserCR0 with externalName := ("alice") }.spec with
                    username := ("bob") } }).cr.externalName
      = ("alice")
    ∧ adminuser.isAdminUserUpToDate
        { { adminUserCR0 with externalName := ("alice") }.spec with username := ("bob") }
        ⟨("u-1"), ("alice"), ("alice@example.com"), ("Alice"), ("A"), ("en"),
         false, true, [], []⟩ = false :=
  c5_stable_external_name apiStub { adminUserCR0 with externalName := ("alice") }
    ("bob")
    ⟨("u-1"), ("alice"), ("alice@example.com"), ("Alice"), ("A"), ("en"),
     false, true, [], []⟩
    (by decide) (by decide)

/-- C6. When discovery finds the remote user but its admin flag is
unset, the AdminUser Observe fails with the distinguishable
not-an-admin error — classified `InvariantViolated` by the spec's
taxonomy — leaving the resource untouched and issuing only the lookup
call: in particular no update call is issued to correct the flag. -/
theorem c6_admin_invariant_violation (api : Api) (cr : adminuser.AdminUser)
    (user : pocketid.User)
    (hg : api.getUserByExternalName
        (if cr.externalName = "" then cr.spec.username else cr.externalName)
      = .ok (some user))
    (hA : user.isAdmin = false) :
    (adminuser.observe api cr).res = .error (.msg errNotAnAdmin)
    ∧ healthOf (adminuser.observe api cr).res = .invariantViolated
    ∧ (adminuser.observe api cr).cr = cr
    ∧ (adminuser.observe api cr).calls
      = [.getUserByExternalName
          (if cr.externalName = "" then cr.spec.username else cr.externalName)] := by
  simp only [adminuser.observe]
  rw [hg]
  simp [hA, healthOf, errNotAnAdmin]

/-- A concrete remote user whose admin flag is unset. -/
def nonAdminUser : pocketid.User :=
  ⟨("u-2"), ("alice"), ("alice@example.com"), ("Alice"), ("A"), ("en"),
   false, false, [], []⟩

/-- A response oracle whose user lookup finds `nonAdminUser`. -/
def apiNonAdmin : Api :=
  { apiStub with getUserByExternalName := fun _ => .ok (some nonAdminUser) }

/-- Witness for C6 at the concrete resource `adminUserCR0` against the
oracle that returns a non-admin user. -/
theorem c6_admin_invariant_violation_witness :
    (adminuser.observe apiNonAdmin adminUserCR0).res = .error (.msg errNotAnAdmin)
    ∧ healthOf (adminuser.observe apiNonAdmin adminUserCR0).res = .invariantViolated
    ∧ (adminuser.observe apiNonAdmin adminUserCR0).cr = adminUserCR0
    ∧ (adminuser.observe apiNonAdmin adminUserCR0).calls
      = [.getUserByExternalName
          (if adminUserCR0.externalName = "" then adminUserCR0.spec.username
           else adminUserCR0.externalName)] :=
  c6_admin_invariant_violation apiNonAdmin adminUserCR0 nonAdminUser rfl rfl

/-- C9. With an empty `Status.AtProvider.ID`, Delete of an AdminUser,
Group, or OIDCClient performs no remote call, succeeds, and leaves the
resource unchanged, while Update fails with the kind's
ID-not-found-in-status error, also without any remote call. -/
theorem c9_empty_id_delete_noop_update_error (api : Api)
    (au : adminuser.AdminUser) (gr : group.GroupResource)
    (oc : oidcclient.OIDCClientResource)
    (ha : au.status.id = "") (hg : gr.status.id = "") (ho : oc.status.id = "") :
    adminuser.delete api au = ⟨.ok (), au, []⟩
    ∧ group.delete api gr = ⟨.ok (), gr, []⟩
    ∧ oidcclient.delete api oc = ⟨.ok (), oc, []⟩
    ∧ adminuser.update api au
      = ⟨.error (.msg ("admin user ID not found in status")), au, []⟩
    ∧ group.update api gr
      = ⟨.error (.msg ("group ID not found in status")), gr, []⟩
    ∧ oidcclient.update api oc
      = ⟨.error (.msg ("OIDC client ID not found in status")), oc, []⟩ := by
  simp [adminuser.delete, group.delete, oidcclient.delete,
        adminuser.update, group.update, oidcclient.update, ha, hg, ho]

/-- Witness for C9 at the three concrete no-status resources. -/
theorem c9_empty_id_delete_noop_update_error_witness :
    adminuser.delete apiStub adminUserCR0 = ⟨.ok (), adminUserCR0, []⟩
    ∧ group.delete apiStub groupCR0 = ⟨.ok (), groupCR0, []⟩
    ∧ oidcclient.delete apiStub oidcClientCR0 = ⟨.ok (), oidcClientCR0, []⟩
    ∧ adminuser.update apiStub adminUserCR0
      = ⟨.error (.msg ("admin user ID not found in status")), adminUserCR0, []⟩
    ∧ group.update apiStub groupCR0
      = ⟨.error (.msg ("group ID not found in status")), groupCR0, []⟩
    ∧ oidcclient.update apiStub oidcClientCR0
      = ⟨.error (.msg ("OIDC client ID not found in status")), oidcClientCR0, []⟩ :=
  c9_empty_id_delete_noop_update_error apiStub adminUserCR0 groupCR0 oidcClientCR0
    rfl rfl rfl

/-- C7. Once both references resolve and the membership query confirms
the binding exists (and the status fetches succeed), Observe reports the
resource as existing and trivially up to date; and the binding's Update
is a no-op: it issues no remote call, changes nothing, and always
succeeds. -/
theorem c7_binding_trivially_uptodate_and_noop_update (api : Api)
    (kube : Kube) (cr cr2 : clientgroupbinding.ClientGroupBinding)
    (clientID groupID : String) (client : pocketid.OIDCClient)
    (g : pocketid.Group)
    (hrc : clientgroupbinding.resolveClientID kube cr = .ok clientID)
    (hrg : clientgroupbinding.resolveGroupID kube cr = .ok groupID)
    (hm : api.isClientInGroup clientID groupID = .ok true)
    (hcl : api.getOIDCClient clientID = .ok (some client))
    (hgr : api.getGroup groupID = .ok (some g)) :
    (clientgroupbinding.observe api kube cr).res
      = .ok ⟨true, true⟩
    ∧ clientgroupbinding.update cr2 = ⟨.ok (), cr2, []⟩ := by
  constructor
  · simp only [clientgroupbinding.observe, hrc, hrg, hm, hcl, hgr]
  · rfl

/-- A concrete binding with literal client and group identifiers. -/
def cgbCR0 : clientgroupbinding.ClientGroupBinding :=
  ⟨(""), ⟨("c-1"), none, ("g-1"), none⟩,
   ⟨⟨(""), (""), [], [], (""), false, false, false⟩, ⟨(""), (""), (""), []⟩⟩, none⟩

/-- A concrete remote group. -/
def pocketGroup1 : pocketid.Group := ⟨("g-1"), ("eng"), ("Engineering"), []⟩

/-- A response oracle confirming the `c-1`/`g-1` membership. -/
def apiMembership : Api :=
  { apiStub with
    isClientInGroup := fun _ _ => .ok true,
    getOIDCClient := fun _ => .ok (some oidcClientAB),
    getGroup := fun _ => .ok (some pocketGroup1) }

/-- Witness for C7 at the concrete binding `cgbCR0` against the oracle
that confirms the membership. -/
theorem c7_binding_trivially_uptodate_and_noop_update_witness :
    (clientgroupbinding.observe apiMembership kubeStub cgbCR0).res
      = .ok ⟨true, true⟩
    ∧ clientgroupbinding.update cgbCR0 = ⟨.ok (), cgbCR0, []⟩ :=
  c7_binding_trivially_uptodate_and_noop_update apiMembership kubeStub cgbCR0
    cgbCR0 ("c-1") ("g-1") oidcClientAB pocketGroup1
    (by decide) (by decide) rfl rfl rfl

/-- C8. A failing out-of-band logo upload is never propagated: when the
create (resp. update) call itself succeeds, Create and Update succeed
for every response oracle — in particular one whose upload fails — while
the upload is still attempted (it appears in the trace) whenever
`LogoURL` is set; and the drift detector ignores both the declared
`LogoURL` and the observed `HasLogo`. -/
theorem c8_logo_upload_best_effort (api : Api)
    (cr cru : oidcclient.OIDCClientResource) (client client' : pocketid.OIDCClient)
    (spec : v1alpha1.OIDCClientParameters) (pclient : pocketid.OIDCClient)
    (u : String) (b : Bool)
    (hc : api.createOIDCClient
        { clientName := cr.spec.name, redirectURIs := cr.spec.callbackURLs,
          postLogoutURIs := cr.spec.logoutCallbackURLs,
          launchURL := cr.spec.launchURL, isPublic := cr.spec.isPublic,
          requirePKCE := cr.spec.pkceEnabled } = .ok client)
    (hlogo : cr.spec.logoURL ≠ "")
    (hid : cru.status.id ≠ "")
    (hup : api.updateOIDCClient cru.status.id
        { clientName := cru.spec.name, redirectURIs := cru.spec.callbackURLs,
          postLogoutURIs := cru.spec.logoutCallbackURLs,
          launchURL := cru.spec.launchURL, isPublic := cru.spec.isPublic,
          requirePKCE := cru.spec.pkceEnabled } = .ok client')
    (hlogo2 : cru.spec.logoURL ≠ "") :
    (oidcclient.create api cr).res
      = .ok ⟨if !client.isPublic ∧ client.clientSecret ≠ "" then
               [(("clientSecret"), client.clientSecret)] else []⟩
    ∧ RemoteCall.uploadOIDCClientLogo client.id cr.spec.logoURL
        ∈ (oidcclient.create api cr).calls
    ∧ (oidcclient.update api cru).res = .ok ()
    ∧ RemoteCall.uploadOIDCClientLogo cru.status.id cru.spec.logoURL
        ∈ (oidcclient.update api cru).calls
    ∧ oidcclient.isOIDCClientUpToDate { spec with logoURL := u } pclient
      = oidcclient.isOIDCClientUpToDate spec pclient
    ∧ oidcclient.isOIDCClientUpToDate spec { pclient with hasLogo := b }
      = oidcclient.isOIDCClientUpToDate spec pclient := by
  refine ⟨?_, ?_, ?_, ?_, ?_, ?_⟩
  · simp only [oidcclient.create]
    rw [hc]
  · simp only [oidcclient.create]
    rw [hc]
    simp [hlogo]
  · simp only [oidcclient.update]
    rw [if_neg (by simpa using hid), hup]
  · simp only [oidcclient.update]
    rw [if_neg (by simpa using hid), hup]
    simp [hlogo2]
  · obtain ⟨n, cb, lcb, lu, ip, pk, lo⟩ := spec
    rfl
  · obtain ⟨i, n, cs, ru, plu, lu, ip, pk, hl, gn⟩ := pclient
    rfl

/-- A concrete OIDCClient resource with a logo URL and a recorded ID. -/
def oidcClientCRLogo : oidcclient.OIDCClientResource :=
  ⟨("app"), ⟨("app"), [("a")], [], (""), false, false, ("https://l/logo.png")⟩,
   ⟨("c-1"), ("app"), [("a")], [], (""), false, false, false⟩, none⟩

/-- A response oracle whose update echoes the request but whose logo
upload fails. -/
def apiC8 : Api :=
  { apiStub with
    updateOIDCClient := fun _ req =>
      .ok ⟨("c-1"), req.clientName, (""), req.redirectURIs, req.postLogoutURIs,
           req.launchURL, req.isPublic, req.requirePKCE, false, []⟩ }

/-- The client echoed back by `apiC8.createOIDCClient` for
`oidcClientCRLogo`. -/
def c8CreatedClient : pocketid.OIDCClient :=
  ⟨("c-1"), ("app"), (""), [("a")], [], (""), false, false, false, []⟩

/-- Witness for C8 at the concrete resource `oidcClientCRLogo` against
the oracle `apiC8`, whose logo upload fails. -/
theorem c8_logo_upload_best_effort_witness :
    (oidcclient.create apiC8 oidcClientCRLogo).res
      = .ok ⟨if !c8CreatedClient.isPublic ∧ c8CreatedClient.clientSecret ≠ "" then
               [(("clientSecret"), c8CreatedClient.clientSecret)] else []⟩
    ∧ RemoteCall.uploadOIDCClientLogo c8CreatedClient.id oidcClientCRLogo.spec.logoURL
        ∈ (oidcclient.create apiC8 oidcClientCRLogo).calls
    ∧ (oidcclient.update apiC8 oidcClientCRLogo).res = .ok ()
    ∧ RemoteCall.uploadOIDCClientLogo oidcClientCRLogo.status.id oidcClientCRLogo.spec.logoURL
        ∈ (oidcclient.update apiC8 oidcClientCRLogo).calls
    ∧ oidcclient.isOIDCClientUpToDate
        { oidcSpecAB with logoURL := ("https://l/logo.png") } oidcClientAB
      = oidcclient.isOIDCClientUpToDate oidcSpecAB oidcClientAB
    ∧ oidcclient.isOIDCClientUpToDate oidcSpecAB { oidcClientAB with hasLogo := true }
      = oidcclient.isOIDCClientUpToDate oidcSpecAB oidcClientAB :=
  c8_logo_upload_best_effort apiC8 oidcClientCRLogo oidcClientCRLogo
    c8CreatedClient c8CreatedClient oidcSpecAB oidcClientAB
    ("https://l/logo.png") true
    (by decide) (by decide) (by decide) (by decide) (by decide)

/-- The client reference of an OIDCClientGroupBinding is a pointer to a
declared OIDCClient resource whose `Status.AtProvider.ID` is empty. -/
def clientRefPending (kube : Kube)
    (cr : clientgroupbinding.ClientGroupBinding) : Prop :=
  cr.spec.clientID = ""
  ∧ ∃ ref res, cr.spec.clientIDRef = some ref
      ∧ kube.getOIDCClient ref = .ok res ∧ res.status.id = ""

/-- The group reference of an OIDCClientGroupBinding is a pointer to a
declared Group resource whose `Status.AtProvider.ID` is empty. -/
def groupRefPendingCGB (kube : Kube)
    (cr : clientgroupbinding.ClientGroupBinding) : Prop :=
  cr.spec.groupID = ""
  ∧ ∃ ref res, cr.spec.groupIDRef = some ref
      ∧ kube.getGroup ref = .ok res ∧ res.status.id = ""

/-- The user reference of a UserGroupBinding is a pointer to a declared
user resource whose `Status.AtProvider.ID` is empty. -/
def userRefPending (kube : Kube)
    (ur : usergroupbinding.UserGroupBinding) : Prop :=
  ur.spec.userID = ""
  ∧ ∃ ref res, ur.spec.userIDRef = some ref
      ∧ kube.getUser ref = .ok res ∧ res.status.id = ""

/-- The group reference of a UserGroupBinding is a pointer to a declared
Group resource whose `Status.AtProvider.ID` is empty. -/
def groupRefPendingUGB (kube : Kube)
    (ur : usergroupbinding.UserGroupBinding) : Prop :=
  ur.spec.groupID = ""
  ∧ ∃ ref res, ur.spec.groupIDRef = some ref
      ∧ kube.getGroup ref = .ok res ∧ res.status.id = ""

/-- When either reference of an OIDCClientGroupBinding points at a
resource with an empty observed ID, resolution fails: either the client
side fails outright, or it succeeds and the group side fails. -/
theorem cgb_resolution_gated (kube : Kube)
    (cr : clientgroupbinding.ClientGroupBinding)
    (h : clientRefPending kube cr ∨ groupRefPendingCGB kube cr) :
    (∃ e, clientgroupbinding.resolveClientID kube cr = .error e)
    ∨ ((∃ c, clientgroupbinding.resolveClientID kube cr = .ok c)
        ∧ ∃ e, clientgroupbinding.resolveGroupID kube cr = .error e) := by
  rcases h with ⟨h1, ref, res, h2, h3, h4⟩ | ⟨h1, ref, res, h2, h3, h4⟩
  · exact .inl ⟨.msg ("referenced OIDC client ID is not available"), by
      simp [clientgroupbinding.resolveClientID, h1, h2, h3, h4]⟩
  · have hg : clientgroupbinding.resolveGroupID kube cr
        = .error (.msg ("referenced group ID is not available")) := by
      simp [clientgroupbinding.resolveGroupID, h1, h2, h3, h4]
    cases clientgroupbinding.resolveClientID kube cr with
    | error e => exact .inl ⟨e, rfl⟩
    | ok c => exact .inr ⟨⟨c, rfl⟩, _, hg⟩

/-- The usergroupbinding analogue of `cgb_resolution_gated`. -/
theorem ugb_resolution_gated (kube : Kube)
    (ur : usergroupbinding.UserGroupBinding)
    (h : userRefPending kube ur ∨ groupRefPendingUGB kube ur) :
    (∃ e, usergroupbinding.resolveUserID kube ur = .error e)
    ∨ ((∃ c, usergroupbinding.resolveUserID kube ur = .ok c)
        ∧ ∃ e, usergroupbinding.resolveGroupID kube ur = .error e) := by
  rcases h with ⟨h1, ref, res, h2, h3, h4⟩ | ⟨h1, ref, res, h2, h3, h4⟩
  · exact .inl ⟨.msg ("referenced user ID is not available"), by
      simp [usergroupbinding.resolveUserID, h1, h2, h3, h4]⟩
  · have hg : usergroupbinding.resolveGroupID kube ur
        = .error (.msg ("referenced group ID is not available")) := by
      simp [usergroupbinding.resolveGroupID, h1, h2, h3, h4]
    cases usergroupbinding.resolveUserID kube ur with
    | error e => exact .inl ⟨e, rfl⟩
    | ok c => exact .inr ⟨⟨c, rfl⟩, _, hg⟩

/-- Under a pending reference, every OIDCClientGroupBinding method
issues no remote call, fails as unresolved, and leaves the resource
unchanged. -/
theorem cgb_methods_gated (api : Api) (kube : Kube)
    (cr : clientgroupbinding.ClientGroupBinding)
    (h : clientRefPending kube cr ∨ groupRefPendingCGB kube cr) :
    ((clientgroupbinding.observe api kube cr).calls = []
      ∧ healthOf (clientgroupbinding.observe api kube cr).res = .unresolved
      ∧ (clientgroupbinding.observe api kube cr).cr = cr)
    ∧ ((clientgroupbinding.create api kube cr).calls = []
      ∧ healthOf (clientgroupbinding.create api kube cr).res = .unresolved
      ∧ (clientgroupbinding.create api kube cr).cr = cr)
    ∧ ((clientgroupbinding.delete api kube cr).calls = []
      ∧ healthOf (clientgroupbinding.delete api kube cr).res = .unresolved
      ∧ (clientgroupbinding.delete api kube cr).cr = cr) := by
  rcases cgb_resolution_gated kube cr h with ⟨e, he⟩ | ⟨⟨c, hcok⟩, e, he⟩
  · refine ⟨⟨?_, ?_, ?_⟩, ⟨?_, ?_, ?_⟩, ⟨?_, ?_, ?_⟩⟩ <;>
      simp [clientgroupbinding.observe, clientgroupbinding.create,
            clientgroupbinding.delete, he, healthOf,
            errResolveClientID, errResolveGroupID, errResolveUserID]
  · refine ⟨⟨?_, ?_, ?_⟩, ⟨?_, ?_, ?_⟩, ⟨?_, ?_, ?_⟩⟩ <;>
      simp [clientgroupbinding.observe, clientgroupbinding.create,
            clientgroupbinding.delete, hcok, he, healthOf,
            errResolveClientID, errResolveGroupID, errResolveUserID]

/-- Under a pending reference, every UserGroupBinding method issues no
remote call, fails as unresolved, and leaves the resource unchanged. -/
theorem ugb_methods_gated (api : Api) (kube : Kube)
    (ur : usergroupbinding.UserGroupBinding)
    (h : userRefPending kube ur ∨ groupRefPendingUGB kube ur) :
    ((usergroupbinding.observe api kube ur).calls = []
      ∧ healthOf (usergroupbinding.observe api kube ur).res = .unresolved
      ∧ (usergroupbinding.observe api kube ur).cr = ur)
    ∧ ((usergroupbinding.create api kube ur).calls = []
      ∧ healthOf (usergroupbinding.create api kube ur).res = .unresolved
      ∧ (usergroupbinding.create api kube ur).cr = ur)
    ∧ ((usergroupbinding.delete api kube ur).calls = []
      ∧ healthOf (usergroupbinding.delete api kube ur).res = .unresolved
      ∧ (usergroupbinding.delete api kube ur).cr = ur) := by
  rcases ugb_resolution_gated kube ur h with ⟨e, he⟩ | ⟨⟨c, hcok⟩, e, he⟩
  · refine ⟨⟨?_, ?_, ?_⟩, ⟨?_, ?_, ?_⟩, ⟨?_, ?_, ?_⟩⟩ <;>
      simp [usergroupbinding.observe, usergroupbinding.create,
            usergroupbinding.delete, he, healthOf,
            errResolveClientID, errResolveGroupID, errResolveUserID]
  · refine ⟨⟨?_, ?_, ?_⟩, ⟨?_, ?_, ?_⟩, ⟨?_, ?_, ?_⟩⟩ <;>
      simp [usergroupbinding.observe, usergroupbinding.create,
            usergroupbinding.delete, hcok, he, healthOf,
            errResolveClientID, errResolveGroupID, errResolveUserID]

/-- C1. For a binding (OIDCClientGroupBinding or UserGroupBinding) whose
member or container reference points to a declared resource with empty
`Status.AtProvider.ID`, each of Observe, Create, and Delete issues no
remote Pocket ID call at all — in particular no membership query or
mutation — leaves the resource unchanged, and ends as `Unresolved` under
the spec's health taxonomy. -/
theorem c1_reference_gating (api : Api) (kube kube2 : Kube)
    (cr : clientgroupbinding.ClientGroupBinding)
    (ur : usergroupbinding.UserGroupBinding)
    (hc : clientRefPending kube cr ∨ groupRefPendingCGB kube cr)
    (hu : userRefPending kube2 ur ∨ groupRefPendingUGB kube2 ur) :
    (((clientgroupbinding.observe api kube cr).calls = []
      ∧ healthOf (clientgroupbinding.observe api kube cr).res = .unresolved
      ∧ (clientgroupbinding.observe api kube cr).cr = cr)
    ∧ ((clientgroupbinding.create api kube cr).calls = []
      ∧ healthOf (clientgroupbinding.create api kube cr).res = .unresolved
      ∧ (clientgroupbinding.create api kube cr).cr = cr)
    ∧ ((clientgroupbinding.delete api kube cr).calls = []
      ∧ healthOf (clientgroupbinding.delete api kube cr).res = .unresolved
      ∧ (clientgroupbinding.delete api kube cr).cr = cr))
    ∧ (((usergroupbinding.observe api kube2 ur).calls = []
      ∧ healthOf (usergroupbinding.observe api kube2 ur).res = .unresolved
      ∧ (usergroupbinding.observe api kube2 ur).cr = ur)
    ∧ ((usergroupbinding.create api kube2 ur).calls = []
      ∧ healthOf (usergroupbinding.create api kube2 ur).res = .unresolved
      ∧ (usergroupbinding.create api kube2 ur).cr = ur)
    ∧ ((usergroupbinding.delete api kube2 ur).calls = []
      ∧ healthOf (usergroupbinding.delete api kube2 ur).res = .unresolved
      ∧ (usergroupbinding.delete api kube2 ur).cr = ur)) :=
  ⟨cgb_methods_gated api kube cr hc, ugb_methods_gated api kube2 ur hu⟩

/-- A Kubernetes oracle whose referenced resources all have empty
observed IDs. -/
def kubeC1 : Kube where
  getOIDCClient := fun _ => .ok oidcClientCR0
  getGroup := fun _ => .error (.msg ("not found"))
  getUser := fun _ => .ok adminUserCR0

/-- A concrete binding whose client reference points at a declared
resource that has not been observed yet. -/
def cgbPending : clientgroupbinding.ClientGroupBinding :=
  ⟨(""), ⟨(""), some ("my-client"), ("g-1"), none⟩,
   ⟨⟨(""), (""), [], [], (""), false, false, false⟩, ⟨(""), (""), (""), []⟩⟩, none⟩

/-- A concrete user-group binding whose user reference points at a
declared resource that has not been observed yet. -/
def ugbPending : usergroupbinding.UserGroupBinding :=
  ⟨(""), ⟨(""), some ("my-user"), ("g-1"), none⟩,
   ⟨⟨(""), (""), (""), (""), (""), (""), false, false, [], []⟩,
    ⟨(""), (""), (""), []⟩⟩, none⟩

/-- Witness for C1 at the concrete pending bindings against `kubeC1`. -/
theorem c1_reference_gating_witness :
    (((clientgroupbinding.observe apiStub kubeC1 cgbPending).calls = []
      ∧ healthOf (clientgroupbinding.observe apiStub kubeC1 cgbPending).res = .unresolved
      ∧ (clientgroupbinding.observe apiStub kubeC1 cgbPending).cr = cgbPending)
    ∧ ((clientgroupbinding.create apiStub kubeC1 cgbPending).calls = []
      ∧ healthOf (clientgroupbinding.create apiStub kubeC1 cgbPending).res = .unresolved
      ∧ (clientgroupbinding.create apiStub kubeC1 cgbPending).cr = cgbPending)
    ∧ ((clientgroupbinding.delete apiStub kubeC1 cgbPending).calls = []
      ∧ healthOf (clientgroupbinding.delete apiStub kubeC1 cgbPending).res = .unresolved
      ∧ (clientgroupbinding.delete apiStub kubeC1 cgbPending).cr = cgbPending))
    ∧ (((usergroupbinding.observe apiStub kubeC1 ugbPending).calls = []
      ∧ healthOf (usergroupbinding.observe apiStub kubeC1 ugbPending).res = .unresolved
      ∧ (usergroupbinding.observe apiStub kubeC1 ugbPending).cr = ugbPending)
    ∧ ((usergroupbinding.create apiStub kubeC1 ugbPending).calls = []
      ∧ healthOf (usergroupbinding.create apiStub kubeC1 ugbPending).res = .unresolved
      ∧ (usergroupbinding.create apiStub kubeC1 ugbPending).cr = ugbPending)
    ∧ ((usergroupbinding.delete apiStub kubeC1 ugbPending).calls = []
      ∧ healthOf (usergroupbinding.delete apiStub kubeC1 ugbPending).res = .unresolved
      ∧ (usergroupbinding.delete apiStub kubeC1 ugbPending).cr = ugbPending)) :=
  c1_reference_gating apiStub kubeC1 kubeC1 cgbPending ugbPending
    (Or.inl ⟨rfl, ("my-client"), oidcClientCR0, rfl, rfl, rfl⟩)
    (Or.inl ⟨rfl, ("my-user"), adminUserCR0, rfl, rfl, rfl⟩)
